import Mathlib

/-!
Verification development for the Tindim WhatsApp onboarding repository.

The dialogue engine (`app/services/whatsapp_onboarding.py`) is embedded as a
pure transition function on a `Lead` record; the webhook deduplication gate
(`app/api/v1/endpoints/webhook.py`) as a pure function over a map from message
ids to arrival timestamps.  Text is modelled as a list of characters; Python's
`str.lower` / accent stripping are modelled by character tables covering the
ASCII range and the Latin accented characters used by this repository's
keyword vocabularies.
-/

namespace Tindim

/-- Inbound text, as a list of characters. -/
abbrev Str := List Char

/-- Coerce a Lean string literal to the character-list representation. -/
def S (s : String) : Str := s.data

/-- Whitespace test used by trimming (Python `str.strip`). -/
def isSpc (c : Char) : Bool := c = ' ' || c = '\t' || c = '\n' || c = '\r'

/-- Lookup in a character table, defaulting to the character itself. -/
def tblGet : List (Char × Char) → Char → Char
  | [], c => c
  | (k, v) :: t, c => if k = c then v else tblGet t c

/-- Case-folding table: ASCII uppercase plus the accented uppercase letters
occurring in the repository's Portuguese vocabularies (Python `str.lower`). -/
def lowPairs : List (Char × Char) :=
  [('A', 'a'), ('B', 'b'), ('C', 'c'), ('D', 'd'), ('E', 'e'), ('F', 'f'),
   ('G', 'g'), ('H', 'h'), ('I', 'i'), ('J', 'j'), ('K', 'k'), ('L', 'l'),
   ('M', 'm'), ('N', 'n'), ('O', 'o'), ('P', 'p'), ('Q', 'q'), ('R', 'r'),
   ('S', 's'), ('T', 't'), ('U', 'u'), ('V', 'v'), ('W', 'w'), ('X', 'x'),
   ('Y', 'y'), ('Z', 'z'),
   ('Á', 'á'), ('À', 'à'), ('Â', 'â'), ('Ã', 'ã'), ('É', 'é'), ('Ê', 'ê'),
   ('Í', 'í'), ('Ó', 'ó'), ('Ô', 'ô'), ('Õ', 'õ'), ('Ú', 'ú'), ('Ç', 'ç')]

/-- Diacritic-stripping table (unicodedata NFD + removal of `Mn` marks),
restricted to the accented characters of the flow's vocabulary. -/
def accPairs : List (Char × Char) :=
  [('á', 'a'), ('à', 'a'), ('â', 'a'), ('ã', 'a'), ('é', 'e'), ('ê', 'e'),
   ('í', 'i'), ('ó', 'o'), ('ô', 'o'), ('õ', 'o'), ('ú', 'u'), ('ç', 'c'),
   ('Á', 'A'), ('À', 'A'), ('Â', 'A'), ('Ã', 'A'), ('É', 'E'), ('Ê', 'E'),
   ('Í', 'I'), ('Ó', 'O'), ('Ô', 'O'), ('Õ', 'O'), ('Ú', 'U'), ('Ç', 'C')]

/-- Character-level case folding. -/
def lowChar (c : Char) : Char := tblGet lowPairs c

/-- Character-level diacritic stripping. -/
def deAcc (c : Char) : Char := tblGet accPairs c

/-- `normalize_text` character action: strip the accent, then lowercase. -/
def normChar (c : Char) : Char := lowChar (deAcc c)

/-- Drop leading whitespace. -/
def trimL (l : Str) : Str := l.dropWhile isSpc

/-- Drop trailing whitespace. -/
def trimR (l : Str) : Str := (l.reverse.dropWhile isSpc).reverse

/-- Python `str.strip`: drop surrounding whitespace. -/
def pyStrip (l : Str) : Str := trimR (trimL l)

/-- `message.lower().strip()` as computed at the top of every handler. -/
def lowerStrip (l : Str) : Str := pyStrip (l.map lowChar)

/-- `normalize_text` from `whatsapp_onboarding.py`: NFD-decompose, drop
nonspacing marks, lowercase, strip surrounding whitespace. -/
def normalize_text (l : Str) : Str := pyStrip (l.map normChar)

/-- `pat` is a prefix of the second argument. -/
def isPre : Str → Str → Bool
  | [], _ => true
  | _ :: _, [] => false
  | a :: as, b :: bs => a == b && isPre as bs

/-- `pat in s` (Python substring containment). -/
def subStr (pat : Str) : Str → Bool
  | [] => isPre pat []
  | c :: t => isPre pat (c :: t) || subStr pat t

/-! ## Data model

`Lead` mirrors the persisted subscriber record fields touched by the
onboarding flow; `OnbData` mirrors the `onboarding_data` JSON bag (a missing
key is represented by the default every read site supplies to `.get`). -/

/-- `OnboardingState` enum of `whatsapp_onboarding.py`. -/
inductive OnboardingState where
  | NEW_LEAD | SELECTING_INTERESTS | SELECTING_PROFILE | SELECTING_TONE
  | DEMO_SENT | AWAITING_PAYMENT | ACTIVE | CONFIGURING
  | CONFIG_SCHEDULE | CONFIG_INTERESTS
deriving DecidableEq, Repr

/-- The `onboarding_data` dictionary: the keys the flow reads or writes. -/
structure OnbData where
  selected_interests : List Str := []
  profile : Option Str := none
  tone : Option Str := none
  config_step : Option Str := none
  new_time_1 : Option Str := none
  editing_interests : List Str := []
deriving DecidableEq, Repr

/-- The persisted subscriber record (fields the dialogue engine touches). -/
structure Lead where
  onboarding_state : OnboardingState
  is_active : Bool
  interests : List Str
  onboarding_data : OnbData
  plan : Str
  preferred_times : List Str
deriving DecidableEq, Repr

/-- The record `_get_or_create_lead` inserts for a brand-new contact
(`preferred_times` takes the read-site default `["07:00", "19:00"]`). -/
def initial_lead : Lead :=
  { onboarding_state := .NEW_LEAD
    is_active := false
    interests := []
    onboarding_data := {}
    plan := S "generalista"
    preferred_times := [S "07:00", S "19:00"] }

/-- Outbound side effects, tagged by which send the handler performs. -/
inductive Msg where
  | resetDone | welcome | interestsList
  | interestNoted (n : Nat) | continueOrMore (n : Nat) | alreadyChosen
  | needOneTopic | unknownTopic | profileIntro | profileButtons
  | toneIntro | toneButtons | demoDigest | subscriptionOffer | planButtons
  | deepDive | upsell | softExit | choosePlan
  | stripeKeyFallback | priceFallback (plan : Str) | checkoutErrorMsg
  | checkoutLink (url : Str)
  | paymentConfirmedMsg | stillWaiting | waitingInfo
  | configHeader | configMenuButtons | scheduleIntro | timeButtons
  | firstTimeSaved (t : Str) | scheduleSaved | interestsConfigIntro
  | interestsConfigButtons | topicAdded (n : Nat) | topicRemoved (n : Nat)
  | topicsFull | topicsCleared | interestsSaved | needOneBeforeSave
  | configDone | backToMenu | dontUnderstand
  | chatReply (text : Str) | paymentCelebration (plan : Str) | firstDigest
deriving DecidableEq, Repr

/-! ## Keyword vocabularies (verbatim from the source) -/

def start_keywords : List Str :=
  [S "olá", S "ola", S "oi", S "tindim", S "start", S "início", S "inicio",
   S "começar", S "comecar", S "teste", S "quero testar", S "menu"]

def reset_keywords : List Str := [S "reset", S "reiniciar", S "debug_reset"]

def config_keywords : List Str :=
  [S "configuracao", S "configuracoes", S "config", S "ajustes",
   S "settings", S "preferencias", S "opcoes"]

/-- `INTERESTS_MAP` keys paired with their `id` fields. -/
def interests_map : List (Str × Str) :=
  [(S "tech", S "TECH"), (S "finance", S "FINANCE"), (S "crypto", S "CRYPTO"),
   (S "politics", S "POLITICS"), (S "sports", S "SPORTS"),
   (S "health", S "HEALTH"), (S "entertainment", S "ENTERTAINMENT"),
   (S "business", S "BUSINESS"), (S "world", S "WORLD"),
   (S "lifestyle", S "LIFESTYLE")]

def continue_keywords : List Str :=
  [S "pronto", S "ok", S "continuar", S "próximo", S "proximo", S "gerar",
   S "resumo"]

def curioso_words : List Str := [S "curioso", S "curiosidade", S "interesse"]
def profissional_words : List Str :=
  [S "profissional", S "trabalho", S "area", S "área"]
def investidor_words : List Str :=
  [S "investidor", S "invisto", S "investimento"]

def formal_words : List Str := [S "formal", S "sério", S "serio", S "profissional"]
def casual_words : List Str :=
  [S "casual", S "descontraído", S "descontraido", S "leve"]

def deep_dive_words : List Str :=
  [S "deep_dive", S "explique", S "mais detalhes", S "aprofundar"]
def positive_words : List Str :=
  [S "adorei", S "gostei", S "legal", S "top", S "show", S "massa", S "demais"]
def generalista_words : List Str :=
  [S "generalista", S "plano 1", S "9,90", S "básico", S "basico"]
def estrategista_words : List Str :=
  [S "estrategista", S "plano 2", S "29,90", S "premium", S "completo"]
def decline_words : List Str := [S "não", S "nao", S "depois", S "cancelar"]

def paid_words : List Str :=
  [S "paguei", S "pago", S "pronto", S "feito", S "já paguei"]
def change_plan_words : List Str :=
  [S "trocar", S "mudar plano", S "outro plano"]

def schedule_words : List Str :=
  [S "horario", S "horário", S "horarios", S "horários", S "schedule"]
def topics_words : List Str :=
  [S "topicos", S "tópicos", S "temas", S "interesses", S "interests"]
def menu_exit_words : List Str := [S "voltar", S "sair", S "cancelar", S "pronto"]
def back_words : List Str := [S "voltar", S "cancelar"]
def clear_words : List Str := [S "limpar", S "resetar", S "zerar"]
def save_words : List Str := [S "salvar", S "pronto", S "ok", S "confirmar"]

def available_times : List Str :=
  [S "06:00", S "07:00", S "08:00", S "09:00", S "10:00", S "11:00", S "12:00",
   S "13:00", S "14:00", S "15:00", S "16:00", S "17:00", S "18:00", S "19:00",
   S "20:00", S "21:00", S "22:00"]

/-- Association-list lookup keyed by string equality (dict membership). -/
def findPair : List (Str × Str) → Str → Option Str
  | [], _ => none
  | (k, v) :: t, s => if k == s then some v else findPair t s

/-! ## External collaborators

Only the outcomes that influence a transition are modelled: the Stripe
configuration and checkout result, and the chat-assistant answer text. -/

structure ExtEnv where
  /-- `STRIPE_SECRET_KEY` is set. -/
  stripeKeySet : Bool
  /-- `STRIPE_PRICE_<PLAN>` environment variable per plan (`none` = unset). -/
  stripePrice : Str → Option Str
  /-- `stripe.checkout.Session.create`: exception or the session url. -/
  checkout : Str → Except Unit Str
  /-- `ChatAssistantService.process_user_message` reply. -/
  chatAnswer : Str → Str

/-! ## Dialogue engine handlers -/

/-- `_handle_new_lead`: welcome, topic chooser, fresh working selection. -/
def handle_new_lead (l : Lead) : Lead × List Msg :=
  ({ l with onboarding_state := .SELECTING_INTERESTS,
            onboarding_data := { selected_interests := [] } },
   [.welcome, .interestsList])

/-- `_advance_to_profile_selection`: commit interests, move to profiling. -/
def advance_to_profile_selection (l : Lead) (interests : List Str) :
    Lead × List Msg :=
  ({ l with onboarding_state := .SELECTING_PROFILE,
            interests := interests,
            onboarding_data := { selected_interests := interests } },
   [.profileIntro, .profileButtons])

/-- `_handle_interest_selection`. -/
def handle_interest_selection (l : Lead) (ml : Str) : Lead × List Msg :=
  let sel := l.onboarding_data.selected_interests
  match findPair interests_map ml with
  | some iid =>
    if sel.contains iid then (l, [.alreadyChosen])
    else
      let sel' := sel ++ [iid]
      if sel'.length < 3 then
        ({ l with onboarding_data :=
             { l.onboarding_data with selected_interests := sel' } },
         [.interestNoted sel'.length, .continueOrMore sel'.length])
      else advance_to_profile_selection l sel'
  | none =>
    if continue_keywords.contains ml then
      if 1 ≤ l.onboarding_data.selected_interests.length then
        advance_to_profile_selection l l.onboarding_data.selected_interests
      else (l, [.needOneTopic, .interestsList])
    else if ml == S "mais" then (l, [.interestsList])
    else (l, [.unknownTopic, .interestsList])

/-- `_handle_profile_selection`. -/
def handle_profile_selection (l : Lead) (ml : Str) : Lead × List Msg :=
  let profile :=
    if curioso_words.contains ml then some (S "curioso")
    else if profissional_words.contains ml then some (S "profissional")
    else if investidor_words.contains ml then some (S "investidor")
    else none
  match profile with
  | some p =>
    ({ l with onboarding_state := .SELECTING_TONE,
              onboarding_data := { l.onboarding_data with profile := some p } },
     [.toneIntro, .toneButtons])
  | none => (l, [.dontUnderstand, .profileButtons])

/-- `_handle_tone_selection` (the demo digest and offer are message-only). -/
def handle_tone_selection (l : Lead) (ml : Str) : Lead × List Msg :=
  let tone :=
    if formal_words.contains ml then some (S "formal")
    else if casual_words.contains ml then some (S "casual")
    else none
  match tone with
  | some t =>
    ({ l with onboarding_state := .DEMO_SENT,
              onboarding_data := { l.onboarding_data with tone := some t } },
     [.toneIntro, .demoDigest, .subscriptionOffer, .planButtons])
  | none => (l, [.dontUnderstand, .toneButtons])

/-- Whether the Stripe checkout configuration and call succeed for `plan`. -/
def payment_link_ok (env : ExtEnv) (plan : Str) : Bool :=
  env.stripeKeySet &&
    (match env.stripePrice plan with
     | none => false
     | some pid =>
       isPre (S "price_") pid &&
         (match env.checkout plan with
          | .ok _ => true
          | .error _ => false))

/-- `_send_payment_link`: on success advance to `AWAITING_PAYMENT` and commit
the plan in the same write; on any failure emit a fallback and do nothing. -/
def send_payment_link (l : Lead) (plan : Str) (env : ExtEnv) :
    Lead × List Msg :=
  if !env.stripeKeySet then (l, [.stripeKeyFallback])
  else
    match env.stripePrice plan with
    | none => (l, [.priceFallback plan])
    | some pid =>
      if !isPre (S "price_") pid then (l, [.priceFallback plan])
      else
        match env.checkout plan with
        | .error _ => (l, [.checkoutErrorMsg])
        | .ok url =>
          ({ l with onboarding_state := .AWAITING_PAYMENT, plan := plan },
           [.checkoutLink url])

/-- `_handle_post_demo`. -/
def handle_post_demo (l : Lead) (ml : Str) (env : ExtEnv) : Lead × List Msg :=
  if deep_dive_words.contains ml then (l, [.deepDive, .upsell, .planButtons])
  else if positive_words.contains ml then (l, [.upsell, .planButtons])
  else if generalista_words.contains ml then
    send_payment_link l (S "generalista") env
  else if estrategista_words.contains ml then
    send_payment_link l (S "estrategista") env
  else if decline_words.contains ml then (l, [.softExit])
  else (l, [.choosePlan, .planButtons])

/-- `_handle_awaiting_payment`. -/
def handle_awaiting_payment (l : Lead) (ml : Str) : Lead × List Msg :=
  if paid_words.contains ml then
    if l.is_active then
      ({ l with onboarding_state := .ACTIVE }, [.paymentConfirmedMsg])
    else (l, [.stillWaiting])
  else if change_plan_words.contains ml then (l, [.planButtons])
  else (l, [.waitingInfo])

/-- `_handle_open_config` (reachable only when `is_active`). -/
def handle_open_config (l : Lead) : Lead × List Msg :=
  ({ l with onboarding_state := .CONFIGURING },
   [.configHeader, .configMenuButtons])

/-- `_start_schedule_config`. -/
def start_schedule_config (l : Lead) : Lead × List Msg :=
  ({ l with onboarding_state := .CONFIG_SCHEDULE,
            onboarding_data :=
              { l.onboarding_data with config_step := some (S "time_1") } },
   [.scheduleIntro, .timeButtons])

/-- `_start_interests_config`. -/
def start_interests_config (l : Lead) : Lead × List Msg :=
  ({ l with onboarding_state := .CONFIG_INTERESTS,
            onboarding_data :=
              { l.onboarding_data with editing_interests := l.interests } },
   [.interestsConfigIntro, .interestsConfigButtons])

/-- `_handle_config_menu`. -/
def handle_config_menu (l : Lead) (ml : Str) : Lead × List Msg :=
  if schedule_words.contains ml then start_schedule_config l
  else if topics_words.contains ml then start_interests_config l
  else if menu_exit_words.contains ml then
    ({ l with onboarding_state := .ACTIVE }, [.configDone])
  else (l, [.dontUnderstand, .configMenuButtons])

/-- `message_lower in AVAILABLE_TIMES or message_lower.replace(":","") in …`. -/
def valid_time (ml : Str) : Bool :=
  available_times.contains ml ||
    (available_times.map (fun t => t.filter (fun c => !(c == ':')))).contains
      (ml.filter (fun c => !(c == ':')))

/-- `_handle_config_schedule`. -/
def handle_config_schedule (l : Lead) (ml : Str) : Lead × List Msg :=
  let od := l.onboarding_data
  let step := od.config_step.getD (S "time_1")
  if valid_time ml then
    let tv := if ml.contains ':' then ml
              else ml.take 2 ++ [':'] ++ ml.drop 2
    if step == S "time_1" then
      if l.plan == S "estrategista" then
        ({ l with onboarding_state := .CONFIG_SCHEDULE,
                  onboarding_data :=
                    { od with new_time_1 := some tv,
                              config_step := some (S "time_2") } },
         [.firstTimeSaved tv, .timeButtons])
      else
        ({ l with onboarding_state := .CONFIGURING,
                  preferred_times := [tv, S "19:00"] },
         [.scheduleSaved, .configMenuButtons])
    else if step == S "time_2" then
      ({ l with onboarding_state := .CONFIGURING,
                preferred_times := [od.new_time_1.getD (S "07:00"), tv] },
       [.scheduleSaved, .configMenuButtons])
    else (l, [])
  else if back_words.contains ml then
    ({ l with onboarding_state := .CONFIGURING },
     [.backToMenu, .configMenuButtons])
  else (l, [.dontUnderstand, .timeButtons])

/-- `_handle_config_interests`. -/
def handle_config_interests (l : Lead) (ml : Str) : Lead × List Msg :=
  let od := l.onboarding_data
  let ed := od.editing_interests
  match findPair interests_map ml with
  | some iid =>
    if ed.contains iid then
      let ed' := ed.erase iid
      ({ l with onboarding_state := .CONFIG_INTERESTS,
                onboarding_data := { od with editing_interests := ed' } },
       [.topicRemoved ed'.length, .interestsConfigButtons])
    else if 3 ≤ ed.length then
      ({ l with onboarding_state := .CONFIG_INTERESTS,
                onboarding_data := { od with editing_interests := ed } },
       [.topicsFull, .interestsConfigButtons])
    else
      let ed' := ed ++ [iid]
      ({ l with onboarding_state := .CONFIG_INTERESTS,
                onboarding_data := { od with editing_interests := ed' } },
       [.topicAdded ed'.length, .interestsConfigButtons])
  | none =>
    if clear_words.contains ml then
      ({ l with onboarding_state := .CONFIG_INTERESTS,
                onboarding_data := { od with editing_interests := [] } },
       [.topicsCleared, .interestsConfigButtons])
    else if save_words.contains ml then
      if ed.length == 0 then (l, [.needOneBeforeSave, .interestsConfigButtons])
      else
        ({ l with onboarding_state := .CONFIGURING, interests := ed },
         [.interestsSaved, .configMenuButtons])
    else if back_words.contains ml then
      ({ l with onboarding_state := .CONFIGURING },
       [.backToMenu, .configMenuButtons])
    else (l, [.dontUnderstand, .interestsConfigButtons])

/-- `WhatsAppOnboarding.process_message`: the full per-event transition
(`lowerStrip msg` is `message_lower`, `normalize_text msg` is
`message_normalized`). -/
def process_message (l : Lead) (msg : Str) (env : ExtEnv) : Lead × List Msg :=
  if reset_keywords.contains (lowerStrip msg) then
    ({ l with onboarding_state := .NEW_LEAD, is_active := false,
              onboarding_data := {}, plan := S "generalista" },
     [.resetDone])
  else if (config_keywords.any fun k => subStr k (normalize_text msg)) &&
      l.is_active then
    handle_open_config l
  else if (start_keywords.any fun k => subStr k (lowerStrip msg)) &&
      !(l.onboarding_state == .ACTIVE) then
    handle_new_lead l
  else
    match l.onboarding_state with
    | .NEW_LEAD => handle_new_lead l
    | .SELECTING_INTERESTS => handle_interest_selection l (lowerStrip msg)
    | .SELECTING_PROFILE => handle_profile_selection l (lowerStrip msg)
    | .SELECTING_TONE => handle_tone_selection l (lowerStrip msg)
    | .DEMO_SENT => handle_post_demo l (lowerStrip msg) env
    | .AWAITING_PAYMENT => handle_awaiting_payment l (lowerStrip msg)
    | .CONFIGURING => handle_config_menu l (lowerStrip msg)
    | .CONFIG_SCHEDULE => handle_config_schedule l (lowerStrip msg)
    | .CONFIG_INTERESTS => handle_config_interests l (lowerStrip msg)
    | .ACTIVE => (l, [.chatReply (env.chatAnswer msg)])

/-- `confirm_payment`: the Stripe payment-confirmation callback; activates the
contact and commits the confirmed plan in the same write. -/
def confirm_payment (l : Lead) (plan : Str) : Lead × List Msg :=
  ({ l with onboarding_state := .ACTIVE, is_active := true, plan := plan },
   [.paymentCelebration plan, .firstDigest])

/-! ## Event system and reachability -/

/-- An event processed against the persisted record: an admitted inbound
message, or the out-of-band payment-confirmation callback. -/
inductive Event where
  | inbound (msg : Str) (env : ExtEnv)
  | paymentConfirmed (plan : Str)

/-- The persisted record after one event. -/
def applyEvent (l : Lead) : Event → Lead
  | .inbound m env => (process_message l m env).1
  | .paymentConfirmed p => (confirm_payment l p).1

/-- Leads reachable from contact creation by processed events. -/
inductive ReachableLead : Lead → Prop where
  | init : ReachableLead initial_lead
  | next (l : Lead) (e : Event) :
      ReachableLead l → ReachableLead (applyEvent l e)

/-! ## Deduplication gate (`app/api/v1/endpoints/webhook.py`)

`_processed_messages` maps a message id to its first-seen timestamp; it is
modelled as an association list (at most one entry per id is ever inserted).
Timestamps are minutes; the retention window is 5 minutes. -/

/-- `_processed_messages`: message id → first-seen timestamp. -/
abbrev DedupMap := List (Str × Nat)

/-- Retention window of the dedup cache (5 minutes). -/
def retention_window : Nat := 5

/-- First-seen timestamp recorded for `id`, if any. -/
def seenAt : DedupMap → Str → Option Nat
  | [], _ => none
  | (k, v) :: t, id => if k == id then some v else seenAt t id

/-- The inline dedup check of `receive_webhook`: a falsy (empty) id skips
deduplication; a known id is skipped; a fresh id is recorded with the current
time *before* the engine dispatch is enqueued.  Returns whether the event is
dispatched to `process_message`, and the updated cache. -/
def dedup_gate (m : DedupMap) (id : Str) (now : Nat) : Bool × DedupMap :=
  if id.isEmpty then (true, m)
  else
    match seenAt m id with
    | some _ => (false, m)
    | none => (true, (id, now) :: m)

/-- `_cleanup_old_messages`: drop entries first seen before `now - 5 minutes`
(`ts < cutoff`, i.e. `ts + retention_window < now`). -/
def cleanup_old_messages (m : DedupMap) (now : Nat) : DedupMap :=
  m.filter (fun e => !decide (e.2 + retention_window < now))

/-- Per-message webhook handling at the gate level: the id is recorded by the
inline check before `process_message` is enqueued as a background task, so
the cache update is independent of the engine outcome `engineOk` (a failed or
crashed background task never removes the entry). -/
def webhook_handle (m : DedupMap) (id : Str) (now : Nat) (_engineOk : Bool) :
    Bool × DedupMap :=
  let r := dedup_gate m id now
  (r.1, r.2)

/-- The head of the list does not satisfy `p` (vacuously for `[]`). -/
def hdOk (p : Char → Bool) : Str → Prop
  | [] => True
  | a :: _ => p a = false

/-- States reachable only by an activated contact: `ACTIVE` and the
configuration sub-flow, which is entered only from `ACTIVE`. -/
def config_family : List OnboardingState :=
  [.ACTIVE, .CONFIGURING, .CONFIG_SCHEDULE, .CONFIG_INTERESTS]

/-- The inductive invariant: in `ACTIVE` or any configuration state the
`is_active` flag is set. -/
def active_flag_inv (l : Lead) : Prop :=
  l.onboarding_state ∈ config_family → l.is_active = true

/-! ## Fixtures used by witnesses and counterexamples -/

/-- External environment with Stripe fully configured and checkout succeeding. -/
def env_ok : ExtEnv :=
  { stripeKeySet := true
    stripePrice := fun _ => some (S "price_1ABC")
    checkout := fun _ => .ok (S "https://checkout.example/cs_test")
    chatAnswer := fun _ => S "ok" }

/-- External environment with no Stripe secret key configured. -/
def env_down : ExtEnv :=
  { stripeKeySet := false
    stripePrice := fun _ => none
    checkout := fun _ => .error ()
    chatAnswer := fun _ => S "ok" }

/-- A contact who has received the demo. -/
def lead_demo : Lead := { initial_lead with onboarding_state := .DEMO_SENT }

/-- A contact awaiting payment whose payment callback already fired. -/
def lead_awaiting_paid : Lead :=
  { initial_lead with onboarding_state := .AWAITING_PAYMENT, is_active := true }

/-- An active, paying contact. -/
def lead_active : Lead :=
  { initial_lead with onboarding_state := .ACTIVE, is_active := true }

/-- A contact mid interest selection with two topics picked. -/
def lead_two_interests : Lead :=
  { initial_lead with
      onboarding_state := .SELECTING_INTERESTS,
      onboarding_data := { selected_interests := [S "TECH", S "FINANCE"] } }

/-! ## Normalisation lemmas

Character-table facts, and idempotence/absorption of the two text
normalisations (`lower().strip()` and `normalize_text`). -/

theorem tblGet_cases (t : List (Char × Char)) (c : Char) :
    (tblGet t c = c ∧ ∀ e ∈ t, e.1 ≠ c) ∨
      (∃ e ∈ t, e.1 = c ∧ tblGet t c = e.2) := by
  induction t with
  | nil => exact Or.inl ⟨rfl, by simp⟩
  | cons hd tl ih =>
    obtain ⟨k, v⟩ := hd
    by_cases hk : k = c
    · exact Or.inr ⟨(k, v), by simp, hk, by simp [tblGet, hk]⟩
    · rcases ih with ⟨h1, h2⟩ | ⟨e, he, h1, h2⟩
      · refine Or.inl ⟨?_, ?_⟩
        · show (if k = c then v else tblGet tl c) = c
          rw [if_neg hk]; exact h1
        · intro e he
          rcases List.mem_cons.1 he with rfl | he
          · exact hk
          · exact h2 e he
      · refine Or.inr ⟨e, List.mem_cons_of_mem _ he, h1, ?_⟩
        show (if k = c then v else tblGet tl c) = e.2
        rw [if_neg hk]; exact h2

theorem tblGet_of_no_key (t : List (Char × Char)) (c : Char)
    (h : ∀ e ∈ t, e.1 ≠ c) : tblGet t c = c := by
  induction t with
  | nil => rfl
  | cons hd tl ih =>
    obtain ⟨k, v⟩ := hd
    show (if k = c then v else tblGet tl c) = c
    rw [if_neg (h (k, v) (by simp))]
    exact ih fun e he => h e (List.mem_cons_of_mem _ he)

theorem lowPairs_val_fix : ∀ e ∈ lowPairs, tblGet lowPairs e.2 = e.2 := by
  decide

theorem lowPairs_comm_fact :
    ∀ e ∈ lowPairs,
      tblGet accPairs e.2 = tblGet lowPairs (tblGet accPairs e.1) := by
  decide

theorem accPairs_val_no_low_key :
    ∀ a ∈ accPairs,
      (∀ e ∈ lowPairs, e.1 ≠ a.1) → ∀ e ∈ lowPairs, e.1 ≠ a.2 := by
  decide

theorem lowPairs_no_space :
    ∀ e ∈ lowPairs, isSpc e.1 = false ∧ isSpc e.2 = false := by decide

theorem accPairs_no_space :
    ∀ e ∈ accPairs, isSpc e.1 = false ∧ isSpc e.2 = false := by decide

theorem lowChar_idem (c : Char) : lowChar (lowChar c) = lowChar c := by
  rcases tblGet_cases lowPairs c with ⟨h1, _⟩ | ⟨e, he, _, h2⟩
  · have h1' : lowChar c = c := h1
    rw [h1']
    exact h1'
  · have h2' : lowChar c = e.2 := h2
    rw [h2']
    exact lowPairs_val_fix e he

theorem deAcc_lowChar (c : Char) : deAcc (lowChar c) = lowChar (deAcc c) := by
  rcases tblGet_cases lowPairs c with ⟨h1, hno⟩ | ⟨e, he, hk, h2⟩
  · have h1' : lowChar c = c := h1
    rw [h1']
    rcases tblGet_cases accPairs c with ⟨g1, _⟩ | ⟨a, ha, hak, g2⟩
    · have g1' : deAcc c = c := g1
      rw [g1', h1']
    · have g2' : deAcc c = a.2 := g2
      rw [g2']
      have hno2 : ∀ e ∈ lowPairs, e.1 ≠ a.2 :=
        accPairs_val_no_low_key a ha fun e he => by
          rw [hak]; exact hno e he
      exact (tblGet_of_no_key lowPairs a.2 hno2).symm
  · have h2' : lowChar c = e.2 := h2
    rw [h2', ← hk]
    exact lowPairs_comm_fact e he

theorem normChar_lowChar (c : Char) : normChar (lowChar c) = normChar c := by
  unfold normChar
  rw [deAcc_lowChar, lowChar_idem]

theorem isSpc_lowChar (c : Char) : isSpc (lowChar c) = isSpc c := by
  rcases tblGet_cases lowPairs c with ⟨h1, _⟩ | ⟨e, he, hk, h2⟩
  · have h1' : lowChar c = c := h1
    rw [h1']
  · have h2' : lowChar c = e.2 := h2
    rw [h2', ← hk, (lowPairs_no_space e he).2, (lowPairs_no_space e he).1]

theorem isSpc_deAcc (c : Char) : isSpc (deAcc c) = isSpc c := by
  rcases tblGet_cases accPairs c with ⟨h1, _⟩ | ⟨e, he, hk, h2⟩
  · have h1' : deAcc c = c := h1
    rw [h1']
  · have h2' : deAcc c = e.2 := h2
    rw [h2', ← hk, (accPairs_no_space e he).2, (accPairs_no_space e he).1]

theorem isSpc_normChar (c : Char) : isSpc (normChar c) = isSpc c := by
  unfold normChar
  rw [isSpc_lowChar, isSpc_deAcc]

theorem map_dropWhile_eq (f : Char → Char) (p : Char → Bool)
    (hf : ∀ c, p (f c) = p c) (l : Str) :
    (l.dropWhile p).map f = (l.map f).dropWhile p := by
  induction l with
  | nil => rfl
  | cons a t ih =>
    by_cases ha : p a = true
    · simp [List.dropWhile_cons, ha, hf, ih]
    · simp [List.dropWhile_cons, ha, hf]

theorem map_pyStrip (f : Char → Char) (hf : ∀ c, isSpc (f c) = isSpc c)
    (l : Str) : (pyStrip l).map f = pyStrip (l.map f) := by
  unfold pyStrip trimR trimL
  rw [List.map_reverse, map_dropWhile_eq f isSpc hf, List.map_reverse,
    map_dropWhile_eq f isSpc hf]

theorem hdOk_dropWhile (p : Char → Bool) (l : Str) :
    hdOk p (l.dropWhile p) := by
  induction l with
  | nil => trivial
  | cons a t ih =>
    by_cases ha : p a = true
    · simpa only [List.dropWhile_cons, ha, if_true] using ih
    · simp only [List.dropWhile_cons, ha, if_false, hdOk]
      exact Bool.not_eq_true _ |>.mp ha

theorem dropWhile_of_hdOk (p : Char → Bool) (l : Str) (h : hdOk p l) :
    l.dropWhile p = l := by
  cases l with
  | nil => rfl
  | cons a t =>
    have ha : p a = false := h
    simp [List.dropWhile_cons, ha]

theorem exists_prefix_dropWhile (p : Char → Bool) (l : Str) :
    ∃ s, l = s ++ l.dropWhile p := by
  induction l with
  | nil => exact ⟨[], rfl⟩
  | cons a t ih =>
    by_cases ha : p a = true
    · obtain ⟨s, hs⟩ := ih
      refine ⟨a :: s, ?_⟩
      simp only [List.dropWhile_cons, ha, if_true, List.cons_append]
      exact congrArg (a :: ·) hs
    · exact ⟨[], by simp [List.dropWhile_cons, ha]⟩

theorem hdOk_trimR (l : Str) (h : hdOk isSpc l) :
    hdOk isSpc (trimR l) := by
  obtain ⟨s, hs⟩ := exists_prefix_dropWhile isSpc l.reverse
  have hl : l = trimR l ++ s.reverse := by
    have h2 := congrArg List.reverse hs
    rw [List.reverse_reverse, List.reverse_append] at h2
    exact h2
  cases htr : trimR l with
  | nil => trivial
  | cons b u =>
    rw [htr, List.cons_append] at hl
    rw [hl] at h
    exact h

theorem hdOk_rev_trimR (l : Str) : hdOk isSpc (trimR l).reverse := by
  unfold trimR
  rw [List.reverse_reverse]
  exact hdOk_dropWhile isSpc l.reverse

theorem pyStrip_idem (l : Str) : pyStrip (pyStrip l) = pyStrip l := by
  have h1 : hdOk isSpc (pyStrip l) :=
    hdOk_trimR (trimL l) (hdOk_dropWhile isSpc l)
  have h2 : hdOk isSpc (pyStrip l).reverse := hdOk_rev_trimR (trimL l)
  show trimR (trimL (pyStrip l)) = pyStrip l
  have hL : trimL (pyStrip l) = pyStrip l :=
    dropWhile_of_hdOk isSpc (pyStrip l) h1
  rw [hL]
  show ((pyStrip l).reverse.dropWhile isSpc).reverse = pyStrip l
  rw [dropWhile_of_hdOk isSpc (pyStrip l).reverse h2, List.reverse_reverse]

theorem lowerStrip_idem (m : Str) : lowerStrip (lowerStrip m) = lowerStrip m := by
  show pyStrip ((pyStrip (m.map lowChar)).map lowChar) = _
  rw [map_pyStrip lowChar isSpc_lowChar, List.map_map]
  have hmm : m.map (lowChar ∘ lowChar) = m.map lowChar :=
    List.map_congr_left fun a _ => lowChar_idem a
  rw [hmm, pyStrip_idem]
  rfl

theorem normalize_text_lowerStrip (m : Str) :
    normalize_text (lowerStrip m) = normalize_text m := by
  show pyStrip ((pyStrip (m.map lowChar)).map normChar) = _
  rw [map_pyStrip normChar isSpc_normChar, List.map_map]
  have hmm : m.map (normChar ∘ lowChar) = m.map normChar :=
    List.map_congr_left fun a _ => normChar_lowChar a
  rw [hmm, pyStrip_idem]
  rfl

/-! ## Dispatch helper -/

/-- When no reset, configuration or start keyword fires, an event against a
`SELECTING_INTERESTS` contact is handled by `_handle_interest_selection`. -/
theorem process_to_interests (l : Lead) (m : Str) (env : ExtEnv)
    (hs : l.onboarding_state = .SELECTING_INTERESTS)
    (h1 : reset_keywords.contains (lowerStrip m) = false)
    (h2 : (config_keywords.any fun k => subStr k (normalize_text m)) = false)
    (h3 : (start_keywords.any fun k => subStr k (lowerStrip m)) = false) :
    process_message l m env = handle_interest_selection l (lowerStrip m) := by
  unfold process_message
  rw [hs, h1, h2, h3]
  rfl

/-- Closed facts about the interest tokens, used to discharge the global
keyword checks for any token of `INTERESTS_MAP`. -/
theorem interest_token_facts :
    ∀ p ∈ interests_map,
      reset_keywords.contains (lowerStrip p.1) = false ∧
      (config_keywords.any fun kw => subStr kw (normalize_text p.1)) = false ∧
      (start_keywords.any fun kw => subStr kw (lowerStrip p.1)) = false ∧
      lowerStrip p.1 = p.1 ∧
      findPair interests_map p.1 = some p.2 := by
  decide

/-! ## C3 -/

/-- C3, counterexample: in `AWAITING_PAYMENT` with the payment already
confirmed, the raw text "já paguei" advances the contact to `ACTIVE`, but its
diacritics-stripped normal form "ja paguei" does not — so transitions are not
invariant under the spec's full normalisation (case-fold + diacritic strip +
trim). -/
theorem c3_counterexample :
    ¬ ((process_message lead_awaiting_paid (S "já paguei") env_ok).1 =
        (process_message lead_awaiting_paid
          (normalize_text (S "já paguei")) env_ok).1) ∧
      (process_message lead_awaiting_paid (S "já paguei") env_ok).1.onboarding_state
          = .ACTIVE ∧
      (process_message lead_awaiting_paid
          (normalize_text (S "já paguei")) env_ok).1.onboarding_state
          = .AWAITING_PAYMENT := by
  decide

/-- C3 (amended): every keyword comparison of the dialogue engine is performed
on the `lower().strip()` form of the inbound text (diacritics preserved), and
only the configuration-command check additionally strips diacritics via
`normalize_text`; consequently the persisted transition is invariant under
case-folding and trimming of the inbound text (it is not invariant under
diacritic stripping, per the counterexample). -/
theorem c3_transition_lower_strip_invariant (l : Lead) (m : Str) (env : ExtEnv) :
    (process_message l (lowerStrip m) env).1 = (process_message l m env).1 := by
  obtain ⟨st, act, ints, od, pl, ts⟩ := l
  unfold process_message
  rw [lowerStrip_idem, normalize_text_lowerStrip]
  cases hb1 : reset_keywords.contains (lowerStrip m)
  · cases hb2 : (config_keywords.any fun k => subStr k (normalize_text m))
    · cases hb3 : (start_keywords.any fun k => subStr k (lowerStrip m))
      · cases st <;> rfl
      · cases st <;> rfl
    · cases act
      · cases hb3 : (start_keywords.any fun k => subStr k (lowerStrip m))
        · cases st <;> rfl
        · cases st <;> rfl
      · rfl
  · rfl

/-! ## C2 -/

/-- C2, counterexample: in `DEMO_SENT` the decline keyword "depois" contains
the start keyword "oi" as a substring, so the start-keyword check fires first
and restarts onboarding (state becomes `SELECTING_INTERESTS` with a cleared
working selection) instead of emitting the soft-exit and leaving the record
unchanged. -/
theorem c2_counterexample :
    process_message lead_demo (S "depois") env_ok ≠ (lead_demo, [Msg.softExit]) ∧
      (process_message lead_demo (S "depois") env_ok).1.onboarding_state =
        .SELECTING_INTERESTS := by
  decide

/-- C2 (amended): in `DEMO_SENT`, a decline keyword that does not contain a
start keyword as a substring — "não", "nao" or "cancelar", after lowercasing
and trimming — emits the soft-exit message and leaves the persisted record
entirely unchanged; "depois" instead restarts onboarding because it contains
the start keyword "oi". -/
theorem c2_decline_soft_exit (l : Lead) (env : ExtEnv) (m : Str)
    (hs : l.onboarding_state = .DEMO_SENT)
    (hm : lowerStrip m = S "não" ∨ lowerStrip m = S "nao" ∨
      lowerStrip m = S "cancelar") :
    process_message l m env = (l, [Msg.softExit]) := by
  unfold process_message
  rw [hs, ← normalize_text_lowerStrip m]
  rcases hm with hlow | hlow | hlow <;> rw [hlow] <;> rfl

/-- C2 witness: a `DEMO_SENT` contact sending " Não " gets the soft-exit and
keeps its record. -/
theorem c2_witness :
    process_message lead_demo (S " Não ") env_ok = (lead_demo, [Msg.softExit]) :=
  c2_decline_soft_exit lead_demo env_ok (S " Não ") rfl (Or.inl (by decide))

/-! ## C9 -/

/-- C9: in every state — including `ACTIVE` with `is_active = true` — an
inbound message whose `lower().strip()` form is "reset", "reiniciar" or
"debug_reset" immediately resets the record: state `NEW_LEAD`, `is_active`
false, `onboarding_data` cleared, plan "generalista"; this check runs before
any state-specific or configuration handling. -/
theorem c9_reset_deactivates (l : Lead) (env : ExtEnv) (m : Str)
    (h : lowerStrip m ∈ reset_keywords) :
    process_message l m env =
      ({ l with onboarding_state := .NEW_LEAD, is_active := false,
                onboarding_data := {}, plan := S "generalista" },
       [Msg.resetDone]) := by
  have hc : reset_keywords.contains (lowerStrip m) = true :=
    List.elem_eq_true_of_mem h
  unfold process_message
  rw [hc]
  rfl

/-- C9 witness: an active, paying subscriber sending " Reset " is silently
deactivated. -/
theorem c9_witness :
    process_message lead_active (S " Reset ") env_ok =
      ({ lead_active with onboarding_state := .NEW_LEAD, is_active := false,
                          onboarding_data := {}, plan := S "generalista" },
       [Msg.resetDone]) :=
  c9_reset_deactivates lead_active env_ok (S " Reset ") (by decide)

/-! ## C6 -/

/-- C6: in `DEMO_SENT`, a plan token dispatches to `_send_payment_link`; on a
successful checkout the contact advances to `AWAITING_PAYMENT` with the chosen
plan committed in the same write; on any failure (missing API key, missing or
invalid price id, or a checkout exception) a fallback message is emitted and
the record is left unchanged. -/
theorem c6_payment_link (l : Lead) (env : ExtEnv) (plan : Str)
    (hs : l.onboarding_state = .DEMO_SENT) :
    (∀ m, lowerStrip m ∈ generalista_words →
        process_message l m env = send_payment_link l (S "generalista") env) ∧
      (∀ m, lowerStrip m ∈ estrategista_words →
        process_message l m env = send_payment_link l (S "estrategista") env) ∧
      (send_payment_link l plan env).1 =
        (if payment_link_ok env plan then
          { l with onboarding_state := .AWAITING_PAYMENT, plan := plan }
         else l) ∧
      (send_payment_link l plan env).2 ≠ [] := by
  refine ⟨?_, ?_, ?_, ?_⟩
  · intro m hm
    unfold process_message
    rw [hs, ← normalize_text_lowerStrip m]
    simp only [generalista_words, List.mem_cons, List.not_mem_nil,
      or_false] at hm
    rcases hm with hlow | hlow | hlow | hlow | hlow <;> rw [hlow] <;> rfl
  · intro m hm
    unfold process_message
    rw [hs, ← normalize_text_lowerStrip m]
    simp only [estrategista_words, List.mem_cons, List.not_mem_nil,
      or_false] at hm
    rcases hm with hlow | hlow | hlow | hlow | hlow <;> rw [hlow] <;> rfl
  · unfold send_payment_link payment_link_ok
    cases hk : env.stripeKeySet
    · simp
    · cases hpr : env.stripePrice plan with
      | none => simp
      | some pid =>
        cases hpp : isPre (S "price_") pid
        · simp [hpp]
        · cases hco : env.checkout plan with
          | error e => simp [hpp, hco]
          | ok url => simp [hpp, hco]
  · unfold send_payment_link
    cases hk : env.stripeKeySet
    · simp
    · cases hpr : env.stripePrice plan with
      | none => simp
      | some pid =>
        cases hpp : isPre (S "price_") pid
        · simp [hpp]
        · cases hco : env.checkout plan with
          | error e => simp [hpp, hco]
          | ok url => simp [hpp, hco]

/-- C6 witness: with Stripe configured, "Plano 2 " issues the estrategista
checkout, and a successful generalista checkout advances the record; with
Stripe down the record is unchanged. -/
theorem c6_witness :
    process_message lead_demo (S "Plano 2 ") env_ok =
        send_payment_link lead_demo (S "estrategista") env_ok ∧
      (send_payment_link lead_demo (S "generalista") env_ok).1 =
        { lead_demo with onboarding_state := .AWAITING_PAYMENT,
                         plan := S "generalista" } ∧
      (send_payment_link lead_demo (S "generalista") env_down).1 = lead_demo := by
  have h1 := c6_payment_link lead_demo env_ok (S "generalista") rfl
  have h2 := c6_payment_link lead_demo env_down (S "generalista") rfl
  refine ⟨h1.2.1 (S "Plano 2 ") (by decide), ?_, ?_⟩
  · rw [h1.2.2.1]
    rw [show payment_link_ok env_ok (S "generalista") = true from by decide]
    simp
  · rw [h2.2.2.1]
    rw [show payment_link_ok env_down (S "generalista") = false from by decide]
    simp

/-! ## C7 -/

/-- C7: in `SELECTING_INTERESTS` with exactly two topics selected, a known
topic token not yet selected is appended (making three) and the contact
auto-advances to `SELECTING_PROFILE`, committing the three interests, with no
continuation keyword required. -/
theorem c7_third_topic_advances (l : Lead) (env : ExtEnv) (k iid : Str)
    (hs : l.onboarding_state = .SELECTING_INTERESTS)
    (hk : (k, iid) ∈ interests_map)
    (hlen : l.onboarding_data.selected_interests.length = 2)
    (hnew : l.onboarding_data.selected_interests.contains iid = false) :
    process_message l k env =
      ({ l with onboarding_state := .SELECTING_PROFILE,
                interests := l.onboarding_data.selected_interests ++ [iid],
                onboarding_data :=
                  { selected_interests :=
                      l.onboarding_data.selected_interests ++ [iid] } },
       [Msg.profileIntro, Msg.profileButtons]) := by
  obtain ⟨hf1, hf2, hf3, hf4, hf5⟩ := interest_token_facts (k, iid) hk
  have hf4' : lowerStrip k = k := hf4
  have hf5' : findPair interests_map k = some iid := hf5
  have hnew' : iid ∉ l.onboarding_data.selected_interests := by
    simpa using hnew
  rw [process_to_interests l k env hs hf1 hf2 hf3, hf4']
  unfold handle_interest_selection
  rw [hf5']
  simp [hnew', hlen, advance_to_profile_selection, List.length_append]

/-- C7 witness: a contact with [TECH, FINANCE] sending "politics" advances. -/
theorem c7_witness :
    process_message lead_two_interests (S "politics") env_ok =
      ({ lead_two_interests with
           onboarding_state := .SELECTING_PROFILE,
           interests := [S "TECH", S "FINANCE", S "POLITICS"],
           onboarding_data :=
             { selected_interests := [S "TECH", S "FINANCE", S "POLITICS"] } },
       [Msg.profileIntro, Msg.profileButtons]) := by
  have h := c7_third_topic_advances lead_two_interests env_ok
    (S "politics") (S "POLITICS") rfl (by decide) (by decide) (by decide)
  exact h

/-! ## C8 -/

/-- C8: in `SELECTING_INTERESTS`, re-sending an already selected topic token
is idempotent — the working selection, the state and every other field are
unchanged, and only the "already chosen" message is emitted. -/
theorem c8_duplicate_topic_idempotent (l : Lead) (env : ExtEnv) (k iid : Str)
    (hs : l.onboarding_state = .SELECTING_INTERESTS)
    (hk : (k, iid) ∈ interests_map)
    (hdup : l.onboarding_data.selected_interests.contains iid = true) :
    process_message l k env = (l, [Msg.alreadyChosen]) := by
  obtain ⟨hf1, hf2, hf3, hf4, hf5⟩ := interest_token_facts (k, iid) hk
  have hf4' : lowerStrip k = k := hf4
  have hf5' : findPair interests_map k = some iid := hf5
  have hdup' : iid ∈ l.onboarding_data.selected_interests := by
    simpa using hdup
  rw [process_to_interests l k env hs hf1 hf2 hf3, hf4']
  unfold handle_interest_selection
  rw [hf5']
  simp [hdup']

/-- C8 witness: re-sending "tech" with [TECH, FINANCE] selected changes
nothing. -/
theorem c8_witness :
    process_message lead_two_interests (S "tech") env_ok =
      (lead_two_interests, [Msg.alreadyChosen]) :=
  c8_duplicate_topic_idempotent lead_two_interests env_ok
    (S "tech") (S "TECH") rfl (by decide) (by decide)

/-! ## C1: the ACTIVE/is_active invariant -/

/-- `_handle_interest_selection` never touches `is_active` and only ever
keeps the state or advances to `SELECTING_PROFILE`. -/
theorem interest_selection_spec (l : Lead) (ml : Str) :
    (handle_interest_selection l ml).1.is_active = l.is_active ∧
      ((handle_interest_selection l ml).1.onboarding_state =
          l.onboarding_state ∨
        (handle_interest_selection l ml).1.onboarding_state =
          .SELECTING_PROFILE) := by
  unfold handle_interest_selection advance_to_profile_selection
  rcases hfp : findPair interests_map ml with _ | iid <;> simp only [hfp] <;>
    split_ifs <;> simp

/-- `_handle_profile_selection` never touches `is_active` and only ever keeps
the state or advances to `SELECTING_TONE`. -/
theorem profile_selection_spec (l : Lead) (ml : Str) :
    (handle_profile_selection l ml).1.is_active = l.is_active ∧
      ((handle_profile_selection l ml).1.onboarding_state =
          l.onboarding_state ∨
        (handle_profile_selection l ml).1.onboarding_state =
          .SELECTING_TONE) := by
  unfold handle_profile_selection
  split_ifs <;> simp

/-- `_handle_tone_selection` never touches `is_active` and only ever keeps
the state or advances to `DEMO_SENT`. -/
theorem tone_selection_spec (l : Lead) (ml : Str) :
    (handle_tone_selection l ml).1.is_active = l.is_active ∧
      ((handle_tone_selection l ml).1.onboarding_state =
          l.onboarding_state ∨
        (handle_tone_selection l ml).1.onboarding_state = .DEMO_SENT) := by
  unfold handle_tone_selection
  split_ifs <;> simp

/-- `_send_payment_link` never touches `is_active` and only ever keeps the
state or advances to `AWAITING_PAYMENT`. -/
theorem send_payment_link_spec (l : Lead) (plan : Str) (env : ExtEnv) :
    (send_payment_link l plan env).1.is_active = l.is_active ∧
      ((send_payment_link l plan env).1.onboarding_state =
          l.onboarding_state ∨
        (send_payment_link l plan env).1.onboarding_state =
          .AWAITING_PAYMENT) := by
  unfold send_payment_link
  split_ifs with h
  · simp
  · rcases hpr : env.stripePrice plan with _ | pid <;> simp only [hpr]
    · simp
    · split_ifs with h2
      · simp
      · rcases hco : env.checkout plan with e | url <;> simp only [hco] <;> simp

/-- `_handle_post_demo` never touches `is_active` and only ever keeps the
state or advances to `AWAITING_PAYMENT` (payment-link success). -/
theorem post_demo_spec (l : Lead) (ml : Str) (env : ExtEnv) :
    (handle_post_demo l ml env).1.is_active = l.is_active ∧
      ((handle_post_demo l ml env).1.onboarding_state =
          l.onboarding_state ∨
        (handle_post_demo l ml env).1.onboarding_state =
          .AWAITING_PAYMENT) := by
  unfold handle_post_demo
  split_ifs <;>
    first
      | exact send_payment_link_spec l (S "generalista") env
      | exact send_payment_link_spec l (S "estrategista") env
      | simp

/-- `_handle_awaiting_payment` never touches `is_active`, and advances the
state (to `ACTIVE`) only when `is_active` is already true. -/
theorem awaiting_payment_spec (l : Lead) (ml : Str) :
    (handle_awaiting_payment l ml).1.is_active = l.is_active ∧
      ((handle_awaiting_payment l ml).1.onboarding_state =
          l.onboarding_state ∨
        ((handle_awaiting_payment l ml).1.onboarding_state = .ACTIVE ∧
          l.is_active = true)) := by
  unfold handle_awaiting_payment
  split_ifs with h1 h2 <;> simp [*]

/-- `_handle_config_menu` never touches `is_active`. -/
theorem config_menu_act (l : Lead) (ml : Str) :
    (handle_config_menu l ml).1.is_active = l.is_active := by
  unfold handle_config_menu start_schedule_config start_interests_config
  split_ifs <;> rfl

/-- `_handle_config_schedule` never touches `is_active`. -/
theorem config_schedule_act (l : Lead) (ml : Str) :
    (handle_config_schedule l ml).1.is_active = l.is_active := by
  unfold handle_config_schedule
  simp only []
  split_ifs <;> rfl

/-- `_handle_config_interests` never touches `is_active`. -/
theorem config_interests_act (l : Lead) (ml : Str) :
    (handle_config_interests l ml).1.is_active = l.is_active := by
  unfold handle_config_interests
  rcases hfp : findPair interests_map ml with _ | iid <;> simp only [hfp] <;>
    split_ifs <;> rfl

/-- One processed event preserves the invariant. -/
theorem applyEvent_preserves_inv (l : Lead) (e : Event)
    (h : active_flag_inv l) : active_flag_inv (applyEvent l e) := by
  cases e with
  | paymentConfirmed p => exact fun _ => rfl
  | inbound m env =>
    show active_flag_inv (process_message l m env).1
    unfold process_message
    split_ifs with h1 h2 h3
    · intro hf; simp [config_family] at hf
    · have h2' : l.is_active = true := by
        have hh := h2
        simp only [Bool.and_eq_true] at hh
        exact hh.2
      exact fun _ => h2'
    · intro hf; simp [handle_new_lead, config_family] at hf
    · cases hst : l.onboarding_state with
      | NEW_LEAD => intro hf; simp [handle_new_lead, config_family] at hf
      | SELECTING_INTERESTS =>
        obtain ⟨ha, hsp⟩ := interest_selection_spec l (lowerStrip m)
        intro hf
        rcases hsp with h' | h'
        · rw [h', hst] at hf; exact absurd hf (by decide)
        · rw [h'] at hf; exact absurd hf (by decide)
      | SELECTING_PROFILE =>
        obtain ⟨ha, hsp⟩ := profile_selection_spec l (lowerStrip m)
        intro hf
        rcases hsp with h' | h'
        · rw [h', hst] at hf; exact absurd hf (by decide)
        · rw [h'] at hf; exact absurd hf (by decide)
      | SELECTING_TONE =>
        obtain ⟨ha, hsp⟩ := tone_selection_spec l (lowerStrip m)
        intro hf
        rcases hsp with h' | h'
        · rw [h', hst] at hf; exact absurd hf (by decide)
        · rw [h'] at hf; exact absurd hf (by decide)
      | DEMO_SENT =>
        obtain ⟨ha, hsp⟩ := post_demo_spec l (lowerStrip m) env
        intro hf
        rcases hsp with h' | h'
        · rw [h', hst] at hf; exact absurd hf (by decide)
        · rw [h'] at hf; exact absurd hf (by decide)
      | AWAITING_PAYMENT =>
        obtain ⟨ha, hsp⟩ := awaiting_payment_spec l (lowerStrip m)
        intro hf
        rcases hsp with h' | ⟨h', hact⟩
        · rw [h', hst] at hf; exact absurd hf (by decide)
        · rw [ha]; exact hact
      | CONFIGURING =>
        intro _
        rw [config_menu_act l (lowerStrip m)]
        exact h (by rw [hst]; decide)
      | CONFIG_SCHEDULE =>
        intro _
        rw [config_schedule_act l (lowerStrip m)]
        exact h (by rw [hst]; decide)
      | CONFIG_INTERESTS =>
        intro _
        rw [config_interests_act l (lowerStrip m)]
        exact h (by rw [hst]; decide)
      | ACTIVE => exact fun hf => h hf

/-- Every reachable lead satisfies the invariant. -/
theorem reachable_inv (l : Lead) (hr : ReachableLead l) : active_flag_inv l := by
  induction hr with
  | init => exact fun hf => absurd hf (by decide)
  | next l' e _ ih => exact applyEvent_preserves_inv l' e ih

/-- C1: for every contact reachable from creation by processed inbound events
and payment-confirmation callbacks, whenever the persisted state is `ACTIVE`
the persisted `is_active` flag is true. -/
theorem c1_active_state_implies_flag (l : Lead)
    (hr : ReachableLead l) (hst : l.onboarding_state = .ACTIVE) :
    l.is_active = true := by
  have hinv : active_flag_inv l := reachable_inv l hr
  exact hinv (by rw [hst]; decide)

/-- C1 witness: the contact reached by a payment confirmation from creation is
`ACTIVE` and its flag is true. -/
theorem c1_witness :
    (applyEvent initial_lead (Event.paymentConfirmed (S "generalista"))).is_active
      = true :=
  c1_active_state_implies_flag _
    (ReachableLead.next initial_lead _ ReachableLead.init) rfl

/-! ## Deduplication lemmas -/

/-- If an id is unseen, no entry of the cache carries it. -/
theorem seenAt_none_keys (m : DedupMap) (id : Str)
    (h : seenAt m id = none) : ∀ e ∈ m, (e.1 == id) = false := by
  induction m with
  | nil => intro e he; exact absurd he (List.not_mem_nil e)
  | cons hd tl ih =>
    obtain ⟨k, v⟩ := hd
    by_cases hk : (k == id) = true
    · exfalso
      unfold seenAt at h
      rw [if_pos hk] at h
      exact Option.noConfusion h
    · have hk' : (k == id) = false := by simpa using hk
      have htl : seenAt tl id = none := by
        unfold seenAt at h
        rwa [if_neg hk] at h
      intro e he
      rcases List.mem_cons.1 he with rfl | he'
      · exact hk'
      · exact ih htl e he'

/-- A filter that keeps every entry of the looked-up id preserves the lookup. -/
theorem seenAt_filter_some (m : DedupMap) (id : Str) (v : Nat)
    (p : Str × Nat → Bool) (h : seenAt m id = some v)
    (hall : ∀ e ∈ m, (e.1 == id) = true → p e = true) :
    seenAt (m.filter p) id = some v := by
  induction m with
  | nil => exact absurd h (by simp [seenAt])
  | cons hd tl ih =>
    obtain ⟨k, w⟩ := hd
    by_cases hk : (k == id) = true
    · have hw : w = v := by
        unfold seenAt at h
        rw [if_pos hk] at h
        exact Option.some.inj h
      have hp : p (k, w) = true := hall (k, w) (by simp) hk
      rw [List.filter_cons, if_pos hp]
      unfold seenAt
      rw [if_pos hk, hw]
    · have htl : seenAt tl id = some v := by
        unfold seenAt at h
        rwa [if_neg hk] at h
      have htl' := ih htl fun e he hke => hall e (List.mem_cons_of_mem _ he) hke
      rw [List.filter_cons]
      by_cases hp : p (k, w) = true
      · rw [if_pos hp]
        unfold seenAt
        rwa [if_neg hk]
      · rwa [if_neg hp]

/-- A filter that drops every entry of the looked-up id erases the lookup. -/
theorem seenAt_filter_none (m : DedupMap) (id : Str)
    (p : Str × Nat → Bool)
    (hall : ∀ e ∈ m, (e.1 == id) = true → p e = false) :
    seenAt (m.filter p) id = none := by
  induction m with
  | nil => rfl
  | cons hd tl ih =>
    obtain ⟨k, w⟩ := hd
    have htl := ih fun e he hke => hall e (List.mem_cons_of_mem _ he) hke
    rw [List.filter_cons]
    by_cases hp : p (k, w) = true
    · have hk : (k == id) = false := by
        by_cases hk' : (k == id) = true
        · exact absurd hp (by rw [hall (k, w) (by simp) hk']; simp)
        · simpa using hk'
      rw [if_pos hp]
      unfold seenAt
      rwa [if_neg (by simp [hk])]
    · rwa [if_neg hp]

/-- A non-empty id admitted at `t1` stays recorded (with timestamp `t1`)
through any sweeps run no later than `t1 + retention_window`, so a later
delivery of the same id is not dispatched. -/
theorem dedup_skip_aux (m0 : DedupMap) (id : Str) (t1 t2 : Nat)
    (sweeps : List Nat) (hid : id ≠ [])
    (h1 : (dedup_gate m0 id t1).1 = true)
    (hs : ∀ t ∈ sweeps, t ≤ t1 + retention_window) :
    (dedup_gate (sweeps.foldl cleanup_old_messages (dedup_gate m0 id t1).2)
        id t2).1 = false := by
  have hne : id.isEmpty = false := by
    cases id with
    | nil => exact absurd rfl hid
    | cons c cs => rfl
  have hseen : seenAt m0 id = none := by
    cases hs2 : seenAt m0 id with
    | none => rfl
    | some v =>
      unfold dedup_gate at h1
      rw [hne] at h1
      simp only [Bool.false_eq_true, if_false] at h1
      rw [hs2] at h1
      exact absurd h1 (by simp)
  have hmap : (dedup_gate m0 id t1).2 = (id, t1) :: m0 := by
    unfold dedup_gate
    rw [hne]
    simp only [Bool.false_eq_true, if_false]
    rw [hseen]
  rw [hmap]
  · have haux : ∀ (sw : List Nat) (M : DedupMap),
        (∀ t ∈ sw, t ≤ t1 + retention_window) →
        seenAt M id = some t1 →
        (∀ e ∈ M, (e.1 == id) = true → e.2 = t1) →
        seenAt (sw.foldl cleanup_old_messages M) id = some t1 ∧
          (∀ e ∈ sw.foldl cleanup_old_messages M,
            (e.1 == id) = true → e.2 = t1) := by
      intro sw
      induction sw with
      | nil => exact fun M _ hA hB => ⟨hA, hB⟩
      | cons t ts ih =>
        intro M hsw hA hB
        have ht : t ≤ t1 + retention_window := hsw t (by simp)
        have hkeep : ∀ e ∈ M, (e.1 == id) = true →
            (fun e : Str × Nat => !decide (e.2 + retention_window < t)) e
              = true := by
          intro e he hke
          have hv := hB e he hke
          have hnlt : ¬ (e.2 + retention_window < t) := by
            rw [hv]; exact Nat.not_lt.mpr ht
          simp [hnlt]
        have hA' : seenAt (cleanup_old_messages M t) id = some t1 :=
          seenAt_filter_some M id t1 _ hA hkeep
        have hB' : ∀ e ∈ cleanup_old_messages M t,
            (e.1 == id) = true → e.2 = t1 :=
          fun e he hke => hB e (List.mem_of_mem_filter he) hke
        exact ih (cleanup_old_messages M t)
          (fun u hu => hsw u (List.mem_cons_of_mem _ hu)) hA' hB'
    have hinv0A : seenAt ((id, t1) :: m0) id = some t1 := by
      unfold seenAt
      rw [if_pos (by simp)]
    have hinv0B : ∀ e ∈ (id, t1) :: m0, (e.1 == id) = true → e.2 = t1 := by
      intro e he hke
      rcases List.mem_cons.1 he with rfl | he'
      · rfl
      · exact absurd hke (by rw [seenAt_none_keys m0 id hseen e he']; simp)
    obtain ⟨hres, -⟩ :=
      haux sweeps ((id, t1) :: m0) hs hinv0A hinv0B
    unfold dedup_gate
    rw [hne]
    simp only [Bool.false_eq_true, if_false]
    rw [hres]

/-! ## C4 -/

/-- C4: two inbound events with the same non-empty message id, both within
the 5-minute retention window (every intervening sweep included), dispatch
only the first to the dialogue engine; the second is skipped by the inline
dedup check. -/
theorem c4_duplicate_skipped (m0 : DedupMap) (id : Str) (t1 t2 : Nat)
    (sweeps : List Nat) (hid : id ≠ [])
    (h1 : (dedup_gate m0 id t1).1 = true)
    (_h2 : t2 ≤ t1 + retention_window)
    (hs : ∀ t ∈ sweeps, t ≤ t1 + retention_window) :
    (dedup_gate (sweeps.foldl cleanup_old_messages (dedup_gate m0 id t1).2)
        id t2).1 = false :=
  dedup_skip_aux m0 id t1 t2 sweeps hid h1 hs

/-- C4 witness: id "wamid.1" admitted at minute 0 is skipped at minute 3
even after a sweep at minute 2. -/
theorem c4_witness :
    (S "wamid.1" ≠ []) ∧
      (dedup_gate [] (S "wamid.1") 0).1 = true ∧
      (dedup_gate
          ([2].foldl cleanup_old_messages (dedup_gate [] (S "wamid.1") 0).2)
          (S "wamid.1") 3).1 = false :=
  ⟨by decide, by decide,
    c4_duplicate_skipped [] (S "wamid.1") 0 3 [2] (by decide) (by decide)
      (by decide) (by decide)⟩

/-! ## C5 -/

/-- C5: an id admitted at `t1` is admissible (and dispatched) again once the
retention window has elapsed and a background sweep has run in between — the
sweep, not the admission check, removes the expired entry. -/
theorem c5_readmitted_after_expiry (m0 : DedupMap) (id : Str)
    (t1 t2 t3 : Nat) (hid : id ≠ [])
    (h1 : (dedup_gate m0 id t1).1 = true)
    (hgap : t1 + retention_window < t2) :
    (dedup_gate (cleanup_old_messages (dedup_gate m0 id t1).2 t2)
        id t3).1 = true := by
  have hne : id.isEmpty = false := by
    cases id with
    | nil => exact absurd rfl hid
    | cons c cs => rfl
  have hseen : seenAt m0 id = none := by
    cases hs2 : seenAt m0 id with
    | none => rfl
    | some v =>
      unfold dedup_gate at h1
      rw [hne] at h1
      simp only [Bool.false_eq_true, if_false] at h1
      rw [hs2] at h1
      exact absurd h1 (by simp)
  have hmap : (dedup_gate m0 id t1).2 = (id, t1) :: m0 := by
    unfold dedup_gate
    rw [hne]
    simp only [Bool.false_eq_true, if_false]
    rw [hseen]
  rw [hmap]
  · have hdrop : ∀ e ∈ (id, t1) :: m0, (e.1 == id) = true →
        (fun e : Str × Nat => !decide (e.2 + retention_window < t2)) e
          = false := by
      intro e he hke
      rcases List.mem_cons.1 he with rfl | he'
      · simp [hgap]
      · exact absurd hke
          (by rw [seenAt_none_keys m0 id hseen e he']; simp)
    have hres : seenAt (cleanup_old_messages ((id, t1) :: m0) t2) id = none :=
      seenAt_filter_none ((id, t1) :: m0) id _ hdrop
    unfold dedup_gate
    rw [hne]
    simp only [Bool.false_eq_true, if_false]
    rw [hres]

/-- C5 witness: admitted at minute 0, swept at minute 6, re-admitted at
minute 7. -/
theorem c5_witness :
    (S "wamid.1" ≠ []) ∧
      (dedup_gate [] (S "wamid.1") 0).1 = true ∧
      (dedup_gate
          (cleanup_old_messages (dedup_gate [] (S "wamid.1") 0).2 6)
          (S "wamid.1") 7).1 = true :=
  ⟨by decide, by decide,
    c5_readmitted_after_expiry [] (S "wamid.1") 0 6 7 (by decide) (by decide)
      (by decide)⟩

/-! ## C10 -/

/-- C10: the id is recorded in the dedup cache before the engine dispatch is
enqueued, so the recorded cache is independent of the engine outcome, and a
redelivery within the retention window is never dispatched again — even when
the first processing attempt failed. -/
theorem c10_at_most_once_dispatch (m0 : DedupMap) (id : Str) (t1 t2 : Nat)
    (ok1 ok2 ok3 : Bool) (sweeps : List Nat) (hid : id ≠ [])
    (h1 : (webhook_handle m0 id t1 ok1).1 = true)
    (hs : ∀ t ∈ sweeps, t ≤ t1 + retention_window) :
    webhook_handle m0 id t1 ok1 = webhook_handle m0 id t1 ok2 ∧
      (webhook_handle
          (sweeps.foldl cleanup_old_messages (webhook_handle m0 id t1 ok1).2)
          id t2 ok3).1 = false :=
  ⟨rfl, dedup_skip_aux m0 id t1 t2 sweeps hid h1 hs⟩

/-- C10 witness: a failed first processing attempt still blocks redelivery. -/
theorem c10_witness :
    webhook_handle [] (S "wamid.1") 0 false = webhook_handle [] (S "wamid.1") 0 true ∧
      (webhook_handle
          ([2].foldl cleanup_old_messages (webhook_handle [] (S "wamid.1") 0 false).2)
          (S "wamid.1") 3 true).1 = false :=
  c10_at_most_once_dispatch [] (S "wamid.1") 0 3 false true true [2]
    (by decide) (by decide) (by decide)

end Tindim
